import Mathlib

/-!
Shallow embedding of the MPS safety-limit calculation notebook
(`calculation_template.ipynb`).

The notebook loads two CSV tables with pandas:

* `max_reqs`  — device requirements: rows indexed by state name, columns
  are photon-energy bins (strings like "8.0") plus one `Power` column;
* `max_pulse` — beam-power lookup: rows indexed by bunch charge, columns
  are the photon-energy bins; cells are predicted pulse energies in µJ.

It then computes the element-wise minimum attenuation and maximum
repetition-rate tables, rounds them, and writes them out.

Numbers are modelled as exact rationals extended with the IEEE special
values `+inf`, `-inf` and `NaN` (type `XQ` below): pandas works on IEEE
doubles, where dividing a nonzero number by zero yields a signed infinity
and `0.0/0.0` yields NaN, and those special values flow through the
comparison, rounding and subtraction steps of the notebook.  All numeric
rounding uses round-half-to-even, the mode of `numpy`/`pandas.round`.
Lookups by a missing key, which raise `KeyError`/`IndexError` in pandas,
are modelled with `Except String`.
-/

/-- Round-half-to-even of a rational to an integer (the tie-breaking rule
of `numpy.round`). -/
def rndHalfEven (x : ℚ) : ℤ :=
  if x < ⌊x⌋ + 1/2 then ⌊x⌋
  else if (⌊x⌋ : ℚ) + 1/2 < x then ⌊x⌋ + 1
  else if ⌊x⌋ % 2 = 0 then ⌊x⌋ else ⌊x⌋ + 1

/-- Round a rational to `d` decimal places, half to even
(`DataFrame.round(d)` on a finite value). -/
def roundQ (d : ℕ) (x : ℚ) : ℚ := (rndHalfEven (x * 10 ^ d) : ℚ) / 10 ^ d

/-- Extended rationals: the value space of an IEEE double cell, with the
finite part kept exact. -/
inductive XQ where
  | fin (q : ℚ)
  | pinf
  | ninf
  | nan
deriving DecidableEq, Repr

/-- IEEE-style division of two finite values: a nonzero numerator over a
zero denominator gives a signed infinity, `0/0` gives NaN. -/
def fdiv (a b : ℚ) : XQ :=
  if b = 0 then
    (if 0 < a then XQ.pinf else if a < 0 then XQ.ninf else XQ.nan)
  else XQ.fin (a / b)

/-- The comparison `x > 1` as pandas evaluates it on a cell: true for
`+inf`, false for `-inf` and NaN. -/
def XQ.gtOne : XQ → Bool
  | .fin q => decide (1 < q)
  | .pinf => true
  | .ninf => false
  | .nan => false

/-- The boolean-mask assignment `df[df > 1.] = 1.`, per cell. -/
def clamp1 (x : XQ) : XQ := if x.gtOne then XQ.fin 1 else x

/-- `DataFrame.round(d)` per cell: infinities and NaN round to themselves. -/
def XQ.roundD (d : ℕ) : XQ → XQ
  | .fin q => .fin (roundQ d q)
  | .pinf => .pinf
  | .ninf => .ninf
  | .nan => .nan

/-- The element-wise `1 - x` step. -/
def XQ.oneSub : XQ → XQ
  | .fin q => .fin (1 - q)
  | .pinf => .ninf
  | .ninf => .pinf
  | .nan => .nan

/-- IEEE subtraction of cell values (`inf - inf = NaN`, NaN propagates). -/
def XQ.sub : XQ → XQ → XQ
  | .fin a, .fin b => .fin (a - b)
  | .fin _, .pinf => .ninf
  | .fin _, .ninf => .pinf
  | .fin _, .nan => .nan
  | .pinf, .fin _ => .pinf
  | .pinf, .pinf => .nan
  | .pinf, .ninf => .pinf
  | .pinf, .nan => .nan
  | .ninf, .fin _ => .ninf
  | .ninf, .pinf => .ninf
  | .ninf, .ninf => .nan
  | .ninf, .nan => .nan
  | .nan, _ => .nan

/-- The literal `/ 1` in the repetition-rate formula: division of a cell
by one, which fixes every IEEE value. -/
def XQ.divOne : XQ → XQ
  | .fin q => .fin (q / 1)
  | .pinf => .pinf
  | .ninf => .ninf
  | .nan => .nan

/-- IEEE `≤` on cell values: any comparison against NaN is false. -/
def XQ.leB : XQ → XQ → Bool
  | .nan, _ => false
  | _, .nan => false
  | .ninf, _ => true
  | _, .pinf => true
  | .pinf, _ => false
  | .fin _, .ninf => false
  | .fin a, .fin b => decide (a ≤ b)

/-- A cell holds an integer-valued float: finite with denominator one. -/
def XQ.isIntVal : XQ → Bool
  | .fin q => q.den == 1
  | _ => false

/-! ## Tables -/

abbrev Label := String

/-- A pandas `DataFrame` with an index of row labels and a list of
labelled columns, each column holding one value per row. -/
structure Frame (α : Type) where
  index : List Label
  columns : List (Label × List α)
deriving DecidableEq, Repr

/-- The requirements table `max_reqs`: each row is a state label together
with its association list of (column label, value) entries. -/
abbrev ReqTable := List (Label × List (Label × ℚ))

/-- `row[c]` on a pandas `Series`: value at key `c`, `KeyError` if absent. -/
def lookupVal (entries : List (Label × ℚ)) (c : Label) : Except String ℚ :=
  match entries with
  | [] => .error ("KeyError: " ++ c)
  | p :: rest => if p.1 = c then .ok p.2 else lookupVal rest c

/-- `max_reqs.index[0]`: the first row label, `IndexError` on an empty
table. -/
def stateName : ReqTable → Except String Label
  | [] => .error "IndexError: index 0 is out of bounds"
  | r :: _ => .ok r.1

/-- `max_reqs.loc[nm]`: every row whose label is `nm`, in table order —
pandas `.loc` with a duplicated index label selects all matching rows.
`KeyError` when no row matches. -/
def locRows (t : ReqTable) (nm : Label) :
    Except String (List (List (Label × ℚ))) :=
  if (t.filter (fun r => r.1 = nm)).map Prod.snd = [] then
    .error ("KeyError: " ++ nm)
  else .ok ((t.filter (fun r => r.1 = nm)).map Prod.snd)

/-- The scalar `max_reqs.loc[state_name][c]` as each loop iteration
consumes it.  A single selected row gives that row's value at key `c`;
with a duplicated state label the selection holds several rows, and the
notebook's series arithmetic and column assignment on that selection
fail on the duplicate axis — modelled as that error. -/
def selVal (rows : List (List (Label × ℚ))) (c : Label) :
    Except String ℚ :=
  match rows with
  | [row] => lookupVal row c
  | _ => .error "ValueError: cannot reindex from a duplicate axis"

/-- First column of a labelled column list with the given label
(`df[lbl]`), as an `Except` (pandas raises `KeyError` when absent). -/
def colGetE (cs : List (Label × List XQ)) (lbl : Label) :
    Except String (List XQ) :=
  match cs with
  | [] => .error ("KeyError: " ++ lbl)
  | c :: rest => if c.1 = lbl then .ok c.2 else colGetE rest lbl

/-- Apply `g` to every cell of every column (a whole-table element-wise
operation). -/
def mapVals (g : α → β) (cs : List (Label × List α)) :
    List (Label × List β) :=
  cs.map (fun c => (c.1, c.2.map g))

/-- The first loop of the notebook: for every beam column, look up the
state row's tolerance at that photon energy and divide it by the column
of predicted pulse energies converted from µJ to mJ
(`max_reqs.loc[state_name][e] / (max_pulse[e]/1000.)`). -/
def transCols (rows : List (List (Label × ℚ))) :
    List (Label × List ℚ) → Except String (List (Label × List XQ))
  | [] => .ok []
  | c :: rest => do
    let r ← selVal rows c.1
    let rest2 ← transCols rows rest
    .ok ((c.1, c.2.map (fun v => fdiv r (v / 1000))) :: rest2)

/-- The full minimum-attenuation pipeline of the notebook: transmission
columns, then the whole-table clamp `df[df > 1.] = 1.`, then
`df.round(2)`, then `1 - df`. -/
def minAttCols (rows : List (List (Label × ℚ))) (bcols : List (Label × List ℚ)) :
    Except String (List (Label × List XQ)) :=
  (transCols rows bcols).map
    (fun cs => mapVals XQ.oneSub (mapVals (XQ.roundD 2) (mapVals clamp1 cs)))

/-- The second loop of the notebook: for every beam column, compute
`max_reqs.loc[state_name]['Power'] / (max_pulse[e]/1000000.) / 1
 - min_attenuation[e]`, pairing the beam column with the attenuation
column of the same label, row by row. -/
def rateCols (rows : List (List (Label × ℚ))) (attcs : List (Label × List XQ)) :
    List (Label × List ℚ) → Except String (List (Label × List XQ))
  | [] => .ok []
  | c :: rest => do
    let p ← selVal rows "Power"
    let acol ← colGetE attcs c.1
    let rest2 ← rateCols rows attcs rest
    .ok ((c.1,
      List.zipWith (fun v a => ((fdiv p (v / 1000000)).divOne).sub a)
        c.2 acol) :: rest2)

/-- The whole calculation of the notebook: take the first requirement
row, fill the minimum-attenuation table, then the repetition-rate table,
and round the latter to zero decimals (`max_pulse_rate.round(0)`).
Both outputs inherit the beam table's index and column labels. -/
def calcLimits (reqs : ReqTable) (beam : Frame ℚ) :
    Except String (Frame XQ × Frame XQ) := do
  let nm ← stateName reqs
  let rows ← locRows reqs nm
  let attcs ← minAttCols rows beam.columns
  let ratecs ← rateCols rows attcs beam.columns
  .ok (⟨beam.index, attcs⟩, ⟨beam.index, mapVals (XQ.roundD 0) ratecs⟩)

/-! ## Cell accessors -/

/-- First column with a given label, if any. -/
def colFind (cs : List (Label × List α)) (lbl : Label) : Option (List α) :=
  match cs with
  | [] => none
  | c :: rest => if c.1 = lbl then some c.2 else colFind rest lbl

/-- Cell of a labelled column list: `i`-th entry of the first column
labelled `lbl`. -/
def cellOf (cs : List (Label × List α)) (lbl : Label) (i : ℕ) : Option α :=
  (colFind cs lbl).bind (fun col => col.get? i)

/-! ## Spec-side formulas (for refinement claims)

These two definitions transcribe the formulas as the specification words
them, per cell, to be compared with the notebook's staged table
computation. -/

/-- Spec formula: `allowed_transmission = max_pulse_energy_mJ /
(predicted_pulse_energy_uJ / 1000)`, then clamp at 1, then round to two
decimals, then `min_attenuation = 1 - transmission`. -/
def specMinAttCell (maxE predE : ℚ) : XQ :=
  XQ.oneSub (XQ.roundD 2 (clamp1 (fdiv maxE (predE / 1000))))

/-- Spec formula: `max_rep_rate = (max_power_W /
(predicted_pulse_energy_uJ / 1000000)) / 1 - min_attenuation`, rounded to
zero decimals. -/
def specMaxRateCell (powerW predE : ℚ) (minAtt : XQ) : XQ :=
  XQ.roundD 0 (XQ.sub ((fdiv powerW (predE / 1000000)).divOne) minAtt)

/-! ## Concrete tables (the spec's §8 scenarios and edge cases) -/

/-- Requirement table of the spec scenarios: state `OPEN`, 10 mJ at
photon energy "8.0", 5 W power. -/
def reqsOpen : ReqTable := [("OPEN", [("8.0", 10), ("Power", 5)])]

/-- The `OPEN` requirement row. -/
def rowOpen : List (Label × ℚ) := [("8.0", 10), ("Power", 5)]

/-- Beam table with predicted pulse energy 8000 µJ at `100pC` / "8.0". -/
def beam8 : Frame ℚ := ⟨["100pC"], [("8.0", [8000])]⟩

/-- Beam table with predicted pulse energy 12000 µJ. -/
def beam12 : Frame ℚ := ⟨["100pC"], [("8.0", [12000])]⟩

/-- Beam table with a zero predicted pulse energy. -/
def beamZero : Frame ℚ := ⟨["100pC"], [("8.0", [0])]⟩

/-- Requirement table with a zero tolerance at "8.0". -/
def reqsZeroTol : ReqTable := [("S", [("8.0", 0), ("Power", 5)])]

/-- Requirement table with an extra photon-energy column "9.0" that the
beam tables do not have. -/
def reqsExtra : ReqTable :=
  [("OPEN", [("8.0", 10), ("9.0", 3), ("Power", 5)])]

/-- Requirement table lacking the beam's "8.0" column. -/
def reqsNoCol : ReqTable := [("OPEN", [("7.0", 10), ("Power", 5)])]

/-- Requirement table whose second row duplicates the first row's
label. -/
def reqsDup : ReqTable :=
  [("OPEN", [("8.0", 10), ("Power", 5)]), ("OPEN", [("8.0", 7), ("Power", 2)])]

def attF8 : Frame XQ := ⟨["100pC"], [("8.0", [XQ.fin 0])]⟩
def rateF8 : Frame XQ := ⟨["100pC"], [("8.0", [XQ.fin 625])]⟩
def attF12 : Frame XQ := ⟨["100pC"], [("8.0", [XQ.fin (17/100)])]⟩
def rateF12 : Frame XQ := ⟨["100pC"], [("8.0", [XQ.fin 416])]⟩
def attFZ : Frame XQ := ⟨["100pC"], [("8.0", [XQ.fin 0])]⟩
def rateFZ : Frame XQ := ⟨["100pC"], [("8.0", [XQ.pinf])]⟩
def attFN : Frame XQ := ⟨["100pC"], [("8.0", [XQ.nan])]⟩
def rateFN : Frame XQ := ⟨["100pC"], [("8.0", [XQ.nan])]⟩


/-! ## Structural lemmas -/

@[simp]
lemma exceptBindErr (e : ε) (f : α → Except ε β) :
    (Except.error e >>= f) = Except.error e := rfl

@[simp]
lemma exceptBindOk (a : α) (f : α → Except ε β) :
    (Except.ok a >>= f) = f a := rfl

@[simp]
lemma exceptMapErr (e : ε) (f : α → β) :
    Except.map f (Except.error e) = (Except.error e : Except ε β) := rfl

@[simp]
lemma exceptMapOk (a : α) (f : α → β) :
    Except.map f (Except.ok a : Except ε α) = Except.ok (f a) := rfl

lemma colFind_mapVals (g : α → β) (cs : List (Label × List α)) (lbl : Label) :
    colFind (mapVals g cs) lbl = (colFind cs lbl).map (List.map g) := by
  induction cs with
  | nil => simp [colFind, mapVals]
  | cons c rest ih =>
    by_cases h : c.1 = lbl
    · simp [colFind, mapVals, h]
    · simpa [colFind, mapVals, h] using ih

lemma cellOf_mapVals (g : α → β) (cs : List (Label × List α)) (lbl : Label)
    (i : ℕ) : cellOf (mapVals g cs) lbl i = (cellOf cs lbl i).map g := by
  unfold cellOf
  rw [colFind_mapVals]
  cases colFind cs lbl with
  | none => simp
  | some col => simp

lemma labels_mapVals (g : α → β) (cs : List (Label × List α)) :
    (mapVals g cs).map Prod.fst = cs.map Prod.fst := by
  induction cs with
  | nil => simp [mapVals]
  | cons c rest ih => simpa [mapVals] using ih

/-- If the transmission loop succeeds, the labels of its output columns
are those of the beam columns. -/
lemma transCols_labels (rows : List (List (Label × ℚ)))
    (bcols : List (Label × List ℚ)) (tcs : List (Label × List XQ))
    (h : transCols rows bcols = .ok tcs) :
    tcs.map Prod.fst = bcols.map Prod.fst := by
  induction bcols generalizing tcs with
  | nil =>
    simp only [transCols, Except.ok.injEq] at h
    simp [← h]
  | cons c rest ih =>
    simp only [transCols] at h
    cases hl : selVal rows c.1 with
    | error e => rw [hl, exceptBindErr] at h; exact Except.noConfusion h
    | ok r =>
      rw [hl, exceptBindOk] at h
      cases ht : transCols rows rest with
      | error e => rw [ht, exceptBindErr] at h; exact Except.noConfusion h
      | ok rest2 =>
        rw [ht, exceptBindOk] at h
        simp only [Except.ok.injEq] at h
        subst h
        simp [ih rest2 ht]

/-- If the transmission loop succeeds, each output cell is the tolerance
at that column divided by the cell's predicted energy converted to mJ. -/
lemma transCols_cell (rows : List (List (Label × ℚ)))
    (bcols : List (Label × List ℚ)) (tcs : List (Label × List XQ))
    (lbl : Label) (i : ℕ) (r v : ℚ)
    (h : transCols rows bcols = .ok tcs)
    (hr : selVal rows lbl = .ok r)
    (hv : cellOf bcols lbl i = some v) :
    cellOf tcs lbl i = some (fdiv r (v / 1000)) := by
  induction bcols generalizing tcs with
  | nil => simp [cellOf, colFind] at hv
  | cons c rest ih =>
    simp only [transCols] at h
    cases hl : selVal rows c.1 with
    | error e => rw [hl, exceptBindErr] at h; exact Except.noConfusion h
    | ok r2 =>
      rw [hl, exceptBindOk] at h
      cases ht : transCols rows rest with
      | error e => rw [ht, exceptBindErr] at h; exact Except.noConfusion h
      | ok rest2 =>
        rw [ht, exceptBindOk] at h
        simp only [Except.ok.injEq] at h
        subst h
        by_cases hc : c.1 = lbl
        · subst hc
          rw [hl] at hr
          injection hr with hr2
          subst hr2
          simp only [cellOf, colFind, eq_self_iff_true, if_true,
            Option.some_bind, List.get?_map] at hv ⊢
          rw [hv]
          simp
        · simp only [cellOf, colFind, if_neg hc] at hv ⊢
          exact ih rest2 ht hv

/-- Labels survive the whole min-attenuation pipeline. -/
lemma minAttCols_labels (rows : List (List (Label × ℚ)))
    (bcols : List (Label × List ℚ)) (attcs : List (Label × List XQ))
    (h : minAttCols rows bcols = .ok attcs) :
    attcs.map Prod.fst = bcols.map Prod.fst := by
  unfold minAttCols at h
  cases ht : transCols rows bcols with
  | error e => rw [ht, exceptMapErr] at h; exact Except.noConfusion h
  | ok tcs =>
    rw [ht, exceptMapOk] at h
    injection h with h2
    subst h2
    rw [labels_mapVals, labels_mapVals, labels_mapVals]
    exact transCols_labels rows bcols tcs ht

/-- Each cell of a successful min-attenuation run is the spec's
clamp → round → subtract-from-one composition applied to the tolerance
and the predicted pulse energy of that cell. -/
lemma minAttCols_cell (rows : List (List (Label × ℚ)))
    (bcols : List (Label × List ℚ)) (attcs : List (Label × List XQ))
    (lbl : Label) (i : ℕ) (r v : ℚ)
    (h : minAttCols rows bcols = .ok attcs)
    (hr : selVal rows lbl = .ok r)
    (hv : cellOf bcols lbl i = some v) :
    cellOf attcs lbl i = some (specMinAttCell r v) := by
  unfold minAttCols at h
  cases ht : transCols rows bcols with
  | error e => rw [ht, exceptMapErr] at h; exact Except.noConfusion h
  | ok tcs =>
    rw [ht, exceptMapOk] at h
    injection h with h2
    subst h2
    rw [cellOf_mapVals, cellOf_mapVals, cellOf_mapVals,
      transCols_cell rows bcols tcs lbl i r v ht hr hv]
    rfl

/-- `colGetE` succeeds exactly as `colFind` does. -/
lemma colGetE_ok_iff (cs : List (Label × List XQ)) (lbl : Label)
    (col : List XQ) : colGetE cs lbl = .ok col ↔ colFind cs lbl = some col := by
  induction cs with
  | nil => simp [colGetE, colFind]
  | cons c rest ih =>
    by_cases h : c.1 = lbl
    · simp [colGetE, colFind, h]
    · simpa [colGetE, colFind, h] using ih

/-- Labels survive the repetition-rate loop. -/
lemma rateCols_labels (rows : List (List (Label × ℚ)))
    (attcs : List (Label × List XQ)) (bcols : List (Label × List ℚ))
    (rcs : List (Label × List XQ))
    (h : rateCols rows attcs bcols = .ok rcs) :
    rcs.map Prod.fst = bcols.map Prod.fst := by
  induction bcols generalizing rcs with
  | nil =>
    simp only [rateCols, Except.ok.injEq] at h
    simp [← h]
  | cons c rest ih =>
    simp only [rateCols] at h
    cases hl : selVal rows "Power" with
    | error e => rw [hl, exceptBindErr] at h; exact Except.noConfusion h
    | ok p =>
      rw [hl, exceptBindOk] at h
      cases hg : colGetE attcs c.1 with
      | error e => rw [hg, exceptBindErr] at h; exact Except.noConfusion h
      | ok acol =>
        rw [hg, exceptBindOk] at h
        cases ht : rateCols rows attcs rest with
        | error e => rw [ht, exceptBindErr] at h; exact Except.noConfusion h
        | ok rest2 =>
          rw [ht, exceptBindOk] at h
          simp only [Except.ok.injEq] at h
          subst h
          simp [ih rest2 ht]

/-- Each cell of a successful repetition-rate loop (before the final
rounding) is power over converted pulse energy, divided by one, minus the
attenuation cell of the same label and row. -/
lemma rateCols_cell (rows : List (List (Label × ℚ)))
    (attcs : List (Label × List XQ)) (bcols : List (Label × List ℚ))
    (rcs : List (Label × List XQ)) (lbl : Label) (i : ℕ) (p v : ℚ) (a : XQ)
    (h : rateCols rows attcs bcols = .ok rcs)
    (hp : selVal rows "Power" = .ok p)
    (hv : cellOf bcols lbl i = some v)
    (ha : cellOf attcs lbl i = some a) :
    cellOf rcs lbl i = some (((fdiv p (v / 1000000)).divOne).sub a) := by
  induction bcols generalizing rcs with
  | nil => simp [cellOf, colFind] at hv
  | cons c rest ih =>
    simp only [rateCols] at h
    rw [hp, exceptBindOk] at h
    cases hg : colGetE attcs c.1 with
    | error e => rw [hg, exceptBindErr] at h; exact Except.noConfusion h
    | ok acol =>
      rw [hg, exceptBindOk] at h
      cases ht : rateCols rows attcs rest with
      | error e => rw [ht, exceptBindErr] at h; exact Except.noConfusion h
      | ok rest2 =>
        rw [ht, exceptBindOk] at h
        simp only [Except.ok.injEq] at h
        subst h
        by_cases hc : c.1 = lbl
        · subst hc
          rw [colGetE_ok_iff] at hg
          unfold cellOf at hv ha ⊢
          rw [hg] at ha
          simp only [colFind, eq_self_iff_true, if_true,
            Option.some_bind] at hv ha ⊢
          rw [List.get?_zipWith', hv, ha]
          rfl
        · simp only [cellOf, colFind, if_neg hc] at hv ha ⊢
          exact ih rest2 ht hv

/-- Decompose a successful run of the whole notebook into its stages. -/
lemma calcLimits_parts (reqs : ReqTable) (beam : Frame ℚ)
    (att rate : Frame XQ) (h : calcLimits reqs beam = .ok (att, rate)) :
    ∃ nm rows attcs ratecs,
      stateName reqs = .ok nm ∧ locRows reqs nm = .ok rows ∧
      minAttCols rows beam.columns = .ok attcs ∧
      rateCols rows attcs beam.columns = .ok ratecs ∧
      att = ⟨beam.index, attcs⟩ ∧
      rate = ⟨beam.index, mapVals (XQ.roundD 0) ratecs⟩ := by
  unfold calcLimits at h
  cases hn : stateName reqs with
  | error e => rw [hn, exceptBindErr] at h; exact Except.noConfusion h
  | ok nm =>
    rw [hn, exceptBindOk] at h
    cases hrow : locRows reqs nm with
    | error e => rw [hrow, exceptBindErr] at h; exact Except.noConfusion h
    | ok rows =>
      rw [hrow, exceptBindOk] at h
      cases hm : minAttCols rows beam.columns with
      | error e => rw [hm, exceptBindErr] at h; exact Except.noConfusion h
      | ok attcs =>
        rw [hm, exceptBindOk] at h
        cases hc : rateCols rows attcs beam.columns with
        | error e => rw [hc, exceptBindErr] at h; exact Except.noConfusion h
        | ok ratecs =>
          rw [hc, exceptBindOk] at h
          simp only [Except.ok.injEq, Prod.mk.injEq] at h
          exact ⟨nm, rows, attcs, ratecs, rfl, hrow, hm, hc,
            h.1.symm, h.2.symm⟩

/-! ## Numeric bounds on rounding -/

lemma rndHalfEven_nonneg (x : ℚ) (hx : 0 ≤ x) : 0 ≤ rndHalfEven x := by
  unfold rndHalfEven
  have hf : (0 : ℤ) ≤ ⌊x⌋ := Int.floor_nonneg.mpr hx
  split_ifs <;> omega

lemma rndHalfEven_le (x : ℚ) (n : ℤ) (hx : x ≤ n) : rndHalfEven x ≤ n := by
  unfold rndHalfEven
  have hf : ⌊x⌋ ≤ n := by
    have h2 := Int.floor_le_floor hx
    simpa using h2
  split_ifs with h1 h2 h3
  · exact hf
  · have hq : (⌊x⌋ : ℚ) < (n : ℚ) := by linarith
    have hz : ⌊x⌋ < n := by exact_mod_cast hq
    omega
  · exact hf
  · have hq : (⌊x⌋ : ℚ) < (n : ℚ) := by
      have hx2 : x = (⌊x⌋ : ℚ) + 1/2 := le_antisymm (not_lt.mp h2) (not_lt.mp h1)
      linarith
    have hz : ⌊x⌋ < n := by exact_mod_cast hq
    omega

lemma roundQ_nonneg (d : ℕ) (x : ℚ) (hx : 0 ≤ x) : 0 ≤ roundQ d x := by
  unfold roundQ
  apply div_nonneg
  · exact_mod_cast rndHalfEven_nonneg _ (by positivity)
  · positivity

lemma roundQ_le_one (d : ℕ) (x : ℚ) (hx : x ≤ 1) : roundQ d x ≤ 1 := by
  unfold roundQ
  rw [div_le_one (by positivity)]
  have h1 : x * 10 ^ d ≤ ((10 ^ d : ℤ) : ℚ) := by
    push_cast
    nlinarith [pow_pos (show (0:ℚ) < 10 by norm_num) d]
  have h2 := rndHalfEven_le (x * 10 ^ d) (10 ^ d) h1
  exact_mod_cast h2

lemma roundQ_zero_eq_int (x : ℚ) : roundQ 0 x = (rndHalfEven x : ℚ) := by
  simp [roundQ]

lemma roundQ_two_one : roundQ 2 1 = 1 := by
  norm_num [roundQ, rndHalfEven]

/-! ## Calculation-level cell and shape lemmas -/

/-- An attenuation-output cell of a successful run equals the spec's
per-cell formula at the looked-up tolerance and beam value. -/
lemma calcLimits_att_cell (reqs : ReqTable) (beam : Frame ℚ)
    (att rate : Frame XQ) (nm : Label) (rows : List (List (Label × ℚ)))
    (lbl : Label) (i : ℕ) (r v : ℚ)
    (h : calcLimits reqs beam = .ok (att, rate))
    (hn : stateName reqs = .ok nm) (hrow : locRows reqs nm = .ok rows)
    (hr : selVal rows lbl = .ok r)
    (hv : cellOf beam.columns lbl i = some v) :
    cellOf att.columns lbl i = some (specMinAttCell r v) := by
  obtain ⟨nm2, row2, attcs, ratecs, hn2, hrow2, hm, hc, hatt, hrt⟩ :=
    calcLimits_parts reqs beam att rate h
  rw [hn] at hn2
  injection hn2 with e1
  subst e1
  rw [hrow] at hrow2
  injection hrow2 with e2
  subst e2
  subst hatt
  exact minAttCols_cell rows beam.columns attcs lbl i r v hm hr hv

/-- A rate-output cell of a successful run equals the rounded
power-over-energy-minus-attenuation formula at the looked-up values. -/
lemma calcLimits_rate_cell (reqs : ReqTable) (beam : Frame ℚ)
    (att rate : Frame XQ) (nm : Label) (rows : List (List (Label × ℚ)))
    (lbl : Label) (i : ℕ) (p v : ℚ) (a : XQ)
    (h : calcLimits reqs beam = .ok (att, rate))
    (hn : stateName reqs = .ok nm) (hrow : locRows reqs nm = .ok rows)
    (hp : selVal rows "Power" = .ok p)
    (hv : cellOf beam.columns lbl i = some v)
    (ha : cellOf att.columns lbl i = some a) :
    cellOf rate.columns lbl i =
      some (XQ.roundD 0 (((fdiv p (v / 1000000)).divOne).sub a)) := by
  obtain ⟨nm2, row2, attcs, ratecs, hn2, hrow2, hm, hc, hatt, hrt⟩ :=
    calcLimits_parts reqs beam att rate h
  rw [hn] at hn2
  injection hn2 with e1
  subst e1
  rw [hrow] at hrow2
  injection hrow2 with e2
  subst e2
  subst hatt
  subst hrt
  simp only [cellOf_mapVals]
  rw [rateCols_cell rows attcs beam.columns ratecs lbl i p v a hc hp hv ha]
  rfl

/-- Both outputs of a successful run carry the beam table's row index
and column labels, in order. -/
lemma calcLimits_shape (reqs : ReqTable) (beam : Frame ℚ)
    (att rate : Frame XQ) (h : calcLimits reqs beam = .ok (att, rate)) :
    att.index = beam.index ∧
    att.columns.map Prod.fst = beam.columns.map Prod.fst ∧
    rate.index = beam.index ∧
    rate.columns.map Prod.fst = beam.columns.map Prod.fst := by
  obtain ⟨nm, rows, attcs, ratecs, hn, hrow, hm, hc, hatt, hrt⟩ :=
    calcLimits_parts reqs beam att rate h
  subst hatt
  subst hrt
  refine ⟨rfl, ?_, rfl, ?_⟩
  · exact minAttCols_labels rows beam.columns attcs hm
  · rw [labels_mapVals]
    exact rateCols_labels rows attcs beam.columns ratecs hc

/-! ## Missing-column error lemmas -/

/-- A key that is not among the row's column labels makes the series
lookup raise `KeyError`. -/
lemma lookupVal_error_of_not_mem (rrow : List (Label × ℚ)) (c : Label)
    (habs : c ∉ rrow.map Prod.fst) :
    lookupVal rrow c = .error ("KeyError: " ++ c) := by
  induction rrow with
  | nil => rfl
  | cons p rest ih =>
    simp only [List.map_cons, List.mem_cons, not_or] at habs
    simp only [lookupVal]
    rw [if_neg (fun hh => habs.1 hh.symm)]
    exact ih habs.2

/-- If the scalar lookup of some beam column label fails on the selected
requirement rows, the transmission loop fails. -/
lemma transCols_missing (rows : List (List (Label × ℚ)))
    (bcols : List (Label × List ℚ)) (lbl : Label) (emsg : String)
    (hmem : lbl ∈ bcols.map Prod.fst)
    (habs : selVal rows lbl = .error emsg) :
    ∃ msg, transCols rows bcols = .error msg := by
  induction bcols with
  | nil => simp at hmem
  | cons c rest ih =>
    simp only [List.map_cons, List.mem_cons] at hmem
    cases hl : selVal rows c.1 with
    | error e =>
      exact ⟨e, by simp only [transCols]; rw [hl, exceptBindErr]⟩
    | ok r =>
      rcases hmem with hmem | hmem
      · exfalso
        subst hmem
        rw [habs] at hl
        exact Except.noConfusion hl
      · obtain ⟨msg, hmsg⟩ := ih hmem
        refine ⟨msg, ?_⟩
        simp only [transCols]
        rw [hl, exceptBindOk, hmsg, exceptBindErr]

/-- If the scalar lookup of some beam column label fails on the selected
requirement rows, the whole calculation fails with an error (no output is
produced). -/
lemma calcLimits_missing_req_col (reqs : ReqTable) (beam : Frame ℚ)
    (nm : Label) (rows : List (List (Label × ℚ))) (lbl : Label)
    (emsg : String)
    (hn : stateName reqs = .ok nm) (hrow : locRows reqs nm = .ok rows)
    (hmem : lbl ∈ beam.columns.map Prod.fst)
    (habs : selVal rows lbl = .error emsg) :
    ∃ msg, calcLimits reqs beam = .error msg := by
  obtain ⟨msg, hmsg⟩ := transCols_missing rows beam.columns lbl emsg hmem habs
  refine ⟨msg, ?_⟩
  unfold calcLimits
  rw [hn, exceptBindOk, hrow, exceptBindOk]
  unfold minAttCols
  rw [hmsg, exceptMapErr, exceptBindErr]

set_option maxHeartbeats 1000000 in
/-- Evaluation of the 8000 µJ scenario: transmission 1.25 clamps to 1,
attenuation 0, rate 625. -/
lemma evalOpen8 : calcLimits reqsOpen beam8 = .ok (attF8, rateF8) := by
  simp [calcLimits, reqsOpen, beam8, attF8, rateF8, stateName, locRows, selVal, List.filter,
        minAttCols, transCols, rateCols, lookupVal, colGetE, mapVals, fdiv,
        clamp1, XQ.gtOne, XQ.roundD, XQ.oneSub, XQ.sub, XQ.divOne,
        Except.bind, bind, Except.map, List.zipWith, roundQ, rndHalfEven]
  all_goals norm_num

set_option maxHeartbeats 1000000 in
/-- Evaluation of the 12000 µJ scenario: attenuation 0.17, rate 416. -/
lemma evalOpen12 : calcLimits reqsOpen beam12 = .ok (attF12, rateF12) := by
  simp [calcLimits, reqsOpen, beam12, attF12, rateF12, stateName, locRows, selVal, List.filter,
        minAttCols, transCols, rateCols, lookupVal, colGetE, mapVals, fdiv,
        clamp1, XQ.gtOne, XQ.roundD, XQ.oneSub, XQ.sub, XQ.divOne,
        Except.bind, bind, Except.map, List.zipWith, roundQ, rndHalfEven]
  all_goals norm_num

set_option maxHeartbeats 1000000 in
/-- Evaluation with a zero predicted pulse energy: attenuation clamps to
0, rate is `+inf`. -/
lemma evalOpenZero : calcLimits reqsOpen beamZero = .ok (attFZ, rateFZ) := by
  simp [calcLimits, reqsOpen, beamZero, attFZ, rateFZ, stateName, locRows, selVal, List.filter,
        minAttCols, transCols, rateCols, lookupVal, colGetE, mapVals, fdiv,
        clamp1, XQ.gtOne, XQ.roundD, XQ.oneSub, XQ.sub, XQ.divOne,
        Except.bind, bind, Except.map, List.zipWith, roundQ, rndHalfEven]
  all_goals norm_num

set_option maxHeartbeats 1000000 in
/-- Evaluation with zero tolerance over zero predicted energy: the
`0/0` cell is NaN and stays NaN through every later step. -/
lemma evalZeroTol : calcLimits reqsZeroTol beamZero = .ok (attFN, rateFN) := by
  simp [calcLimits, reqsZeroTol, beamZero, attFN, rateFN, stateName, locRows, selVal, List.filter,
        minAttCols, transCols, rateCols, lookupVal, colGetE, mapVals, fdiv,
        clamp1, XQ.gtOne, XQ.roundD, XQ.oneSub, XQ.sub, XQ.divOne,
        Except.bind, bind, Except.map, List.zipWith, roundQ, rndHalfEven]
  all_goals norm_num

set_option maxHeartbeats 1000000 in
/-- A requirement column with no matching beam column is never visited:
the run with the extra "9.0" requirement column succeeds with the same
output as the plain one. -/
lemma evalExtra8 : calcLimits reqsExtra beam8 = .ok (attF8, rateF8) := by
  simp [calcLimits, reqsExtra, beam8, attF8, rateF8, stateName, locRows, selVal, List.filter,
        minAttCols, transCols, rateCols, lookupVal, colGetE, mapVals, fdiv,
        clamp1, XQ.gtOne, XQ.roundD, XQ.oneSub, XQ.sub, XQ.divOne,
        Except.bind, bind, Except.map, List.zipWith, roundQ, rndHalfEven]
  all_goals norm_num

/-! ## Per-cell formula facts -/

/-- With a positive tolerance over a zero predicted energy, the spec cell
formula clamps the infinite transmission and yields zero attenuation. -/
lemma specMinAttCell_zero_energy (r : ℚ) (hr : 0 < r) :
    specMinAttCell r 0 = XQ.fin 0 := by
  simp only [specMinAttCell, fdiv, zero_div, if_pos rfl, if_pos hr, clamp1,
    XQ.gtOne, XQ.roundD, XQ.oneSub, if_true, roundQ_two_one]
  norm_num

/-- With a nonzero predicted energy the attenuation cell is finite. -/
lemma specMinAttCell_fin (r v : ℚ) (hv : v ≠ 0) :
    ∃ qa, specMinAttCell r v = XQ.fin qa := by
  have hv2 : v / 1000 ≠ 0 := div_ne_zero hv (by norm_num)
  simp only [specMinAttCell, fdiv, if_neg hv2]
  by_cases h1 : XQ.gtOne (XQ.fin (r / (v / 1000)))
  · exact ⟨1 - roundQ 2 1, by simp [clamp1, h1, XQ.roundD, XQ.oneSub]⟩
  · exact ⟨1 - roundQ 2 (r / (v / 1000)),
      by simp [clamp1, h1, XQ.roundD, XQ.oneSub]⟩

/-- With non-negative tolerance and predicted energy, not both zero, the
attenuation cell is a finite value between 0 and 1. -/
lemma specMinAttCell_bounds (r v : ℚ) (hr0 : 0 ≤ r) (hv0 : 0 ≤ v)
    (hnb : ¬(r = 0 ∧ v = 0)) :
    XQ.leB (XQ.fin 0) (specMinAttCell r v) = true ∧
    XQ.leB (specMinAttCell r v) (XQ.fin 1) = true := by
  by_cases hv : v = 0
  · subst hv
    have hr : 0 < r := lt_of_le_of_ne hr0 (fun e => hnb ⟨e.symm, rfl⟩)
    rw [specMinAttCell_zero_energy r hr]
    refine ⟨?_, ?_⟩ <;> simp [XQ.leB]
  · have hvpos : 0 < v := lt_of_le_of_ne hv0 (Ne.symm hv)
    have hv2 : v / 1000 ≠ 0 := div_ne_zero hv (by norm_num)
    simp only [specMinAttCell, fdiv, if_neg hv2]
    have hq0 : 0 ≤ r / (v / 1000) := div_nonneg hr0 (by positivity)
    by_cases h1 : (1:ℚ) < r / (v / 1000)
    · simp [clamp1, XQ.gtOne, h1, XQ.roundD, XQ.oneSub, roundQ_two_one,
        XQ.leB]
    · have hb1 := roundQ_nonneg 2 (r / (v / 1000)) hq0
      have hb2 := roundQ_le_one 2 (r / (v / 1000)) (not_lt.mp h1)
      simp only [clamp1, XQ.gtOne, h1, decide_eq_true_eq, if_false,
        XQ.roundD, XQ.oneSub, XQ.leB, eq_self_iff_true]
      refine ⟨?_, ?_⟩ <;> linarith

/-- With a nonzero predicted energy and a finite attenuation cell, the
rate cell is the integer produced by the final rounding. -/
lemma specMaxRateCell_int (p v qa : ℚ) (hv : v ≠ 0) :
    ∃ n : ℤ, specMaxRateCell p v (XQ.fin qa) = XQ.fin (n : ℚ) := by
  have hv2 : v / 1000000 ≠ 0 := div_ne_zero hv (by norm_num)
  refine ⟨rndHalfEven (p / (v / 1000000) / 1 - qa), ?_⟩
  simp [specMaxRateCell, fdiv, hv, hv2, XQ.divOne, XQ.sub, XQ.roundD,
    roundQ_zero_eq_int]

/-! ## Claims -/

/-- C1 (counterexample): in the 12000 µJ scenario the notebook's maximum
repetition rate is 416, not the 417 the claim states — the exact value
416.4966… rounds down to 416. -/
theorem scenario12_rate_not_417 :
    calcLimits reqsOpen beam12 = .ok (attF12, rateF12) ∧
    cellOf rateF12.columns "8.0" 0 = some (XQ.fin 416) ∧
    XQ.fin (416 : ℚ) ≠ XQ.fin (417 : ℚ) := by
  refine ⟨evalOpen12, by simp [rateF12, cellOf, colFind], ?_⟩
  simp only [ne_eq, XQ.fin.injEq]
  norm_num

/-- C1 (amended): for the requirement row `{"8.0": 10 mJ, Power: 5 W}`
and beam-power cell 12000 µJ, min_attenuation = 0.17 (transmission 10/12
rounds to 0.83) and max_rep_rate = 416, rounding 416.4966… to zero
decimal places. -/
theorem scenario12_att_and_rate :
    calcLimits reqsOpen beam12 = .ok (attF12, rateF12) ∧
    cellOf attF12.columns "8.0" 0 = some (XQ.fin (17/100)) ∧
    cellOf rateF12.columns "8.0" 0 = some (XQ.fin 416) :=
  ⟨evalOpen12, by simp [attF12, cellOf, colFind], by simp [rateF12, cellOf, colFind]⟩

/-- C2: every cell of the maximum-repetition-rate output equals
`round((max_power_W / (predicted_pulse_energy_uJ / 1e6)) / 1
 - min_attenuation, 0)`: the already-computed attenuation cell is
subtracted from the power-over-pulse-energy quotient and the result is
rounded to zero decimals. -/
theorem maxRate_cell_follows_spec_formula (reqs : ReqTable) (beam : Frame ℚ)
    (att rate : Frame XQ) (nm : Label) (rows : List (List (Label × ℚ)))
    (lbl : Label) (i : ℕ) (p v : ℚ) (a : XQ)
    (h : calcLimits reqs beam = .ok (att, rate))
    (hn : stateName reqs = .ok nm) (hrow : locRows reqs nm = .ok rows)
    (hp : selVal rows "Power" = .ok p)
    (hv : cellOf beam.columns lbl i = some v)
    (ha : cellOf att.columns lbl i = some a) :
    cellOf rate.columns lbl i = some (specMaxRateCell p v a) :=
  calcLimits_rate_cell reqs beam att rate nm rows lbl i p v a h hn hrow hp hv ha

/-- Witness for C2 at the 8000 µJ scenario. -/
theorem maxRate_cell_follows_spec_formula_witness :
    cellOf rateF8.columns "8.0" 0 = some (specMaxRateCell 5 8000 (XQ.fin 0)) :=
  maxRate_cell_follows_spec_formula reqsOpen beam8 attF8 rateF8 "OPEN" [rowOpen]
    "8.0" 0 5 8000 (XQ.fin 0) evalOpen8 (by simp [stateName, reqsOpen])
    (by simp [locRows, reqsOpen, rowOpen, List.filter]) (by simp [selVal, lookupVal, rowOpen])
    (by simp [cellOf, colFind, beam8]) (by simp [cellOf, colFind, attF8])

/-- C3: every cell of the minimum-attenuation output equals the spec's
per-cell composition in the order clamp → round to two decimals →
subtract from one, applied to
`max_pulse_energy_mJ / (predicted_pulse_energy_uJ / 1000)`. -/
theorem minAtt_cell_follows_spec_order (reqs : ReqTable) (beam : Frame ℚ)
    (att rate : Frame XQ) (nm : Label) (rows : List (List (Label × ℚ)))
    (lbl : Label) (i : ℕ) (r v : ℚ)
    (h : calcLimits reqs beam = .ok (att, rate))
    (hn : stateName reqs = .ok nm) (hrow : locRows reqs nm = .ok rows)
    (hr : selVal rows lbl = .ok r)
    (hv : cellOf beam.columns lbl i = some v) :
    cellOf att.columns lbl i = some (specMinAttCell r v) :=
  calcLimits_att_cell reqs beam att rate nm rows lbl i r v h hn hrow hr hv

/-- Witness for C3 at the 8000 µJ scenario. -/
theorem minAtt_cell_follows_spec_order_witness :
    cellOf attF8.columns "8.0" 0 = some (specMinAttCell 10 8000) :=
  minAtt_cell_follows_spec_order reqsOpen beam8 attF8 rateF8 "OPEN" [rowOpen]
    "8.0" 0 10 8000 evalOpen8 (by simp [stateName, reqsOpen])
    (by simp [locRows, reqsOpen, rowOpen, List.filter]) (by simp [selVal, lookupVal, rowOpen])
    (by simp [cellOf, colFind, beam8])

/-- C4: a zero predicted pulse energy with a positive tolerance raises no
exception — the unbounded transmission is clamped to 1 and the
minimum-attenuation cell is 0. -/
theorem minAtt_zero_energy_clamps_to_zero (reqs : ReqTable) (beam : Frame ℚ)
    (att rate : Frame XQ) (nm : Label) (rows : List (List (Label × ℚ)))
    (lbl : Label) (i : ℕ) (r : ℚ)
    (h : calcLimits reqs beam = .ok (att, rate))
    (hn : stateName reqs = .ok nm) (hrow : locRows reqs nm = .ok rows)
    (hr : selVal rows lbl = .ok r) (hrpos : 0 < r)
    (hv : cellOf beam.columns lbl i = some 0) :
    cellOf att.columns lbl i = some (XQ.fin 0) := by
  rw [calcLimits_att_cell reqs beam att rate nm rows lbl i r 0 h hn hrow hr hv,
    specMinAttCell_zero_energy r hrpos]

/-- Witness for C4 at the zero-energy beam table. -/
theorem minAtt_zero_energy_clamps_to_zero_witness :
    cellOf attFZ.columns "8.0" 0 = some (XQ.fin 0) :=
  minAtt_zero_energy_clamps_to_zero reqsOpen beamZero attFZ rateFZ "OPEN"
    [rowOpen] "8.0" 0 10 evalOpenZero (by simp [stateName, reqsOpen])
    (by simp [locRows, reqsOpen, rowOpen, List.filter]) (by simp [selVal, lookupVal, rowOpen])
    (by norm_num) (by simp [cellOf, colFind, beamZero])

/-- C5 (counterexample): a photon-energy column ("9.0") present in the
requirements table but absent from the beam-power table does not make the
calculation fail — the loop only visits beam columns, so the extra
requirement column is silently ignored and full output is produced. -/
theorem extra_req_column_is_ignored :
    stateName reqsExtra = .ok "OPEN" ∧
    locRows reqsExtra "OPEN" = .ok [[("8.0", 10), ("9.0", 3), ("Power", 5)]] ∧
    "9.0" ∈ List.map Prod.fst [("8.0", (10:ℚ)), ("9.0", 3), ("Power", 5)] ∧
    "9.0" ∉ beam8.columns.map Prod.fst ∧
    calcLimits reqsExtra beam8 = .ok (attF8, rateF8) :=
  ⟨by simp [stateName, reqsExtra], by simp [locRows, reqsExtra, List.filter],
    by simp, by simp [beam8], evalExtra8⟩

/-- C5 (amended): a photon-energy column present in the beam-power table
but absent from the requirement row makes the calculation fail with a
missing-key error before any output is produced (the converse direction,
a requirement-only column, is ignored). -/
theorem missing_req_column_fails (reqs : ReqTable) (beam : Frame ℚ)
    (nm : Label) (row : List (Label × ℚ)) (lbl : Label)
    (hn : stateName reqs = .ok nm) (hrow : locRows reqs nm = .ok [row])
    (hmem : lbl ∈ beam.columns.map Prod.fst)
    (habs : lbl ∉ row.map Prod.fst) :
    ∃ msg, calcLimits reqs beam = .error msg :=
  calcLimits_missing_req_col reqs beam nm [row] lbl ("KeyError: " ++ lbl)
    hn hrow hmem (lookupVal_error_of_not_mem row lbl habs)

/-- Witness for C5 (amended): the requirement table lacking "8.0" makes
the run with beam column "8.0" error out. -/
theorem missing_req_column_fails_witness :
    ∃ msg, calcLimits reqsNoCol beam8 = .error msg :=
  missing_req_column_fails reqsNoCol beam8 "OPEN" [("7.0", 10), ("Power", 5)]
    "8.0" (by simp [stateName, reqsNoCol])
    (by simp [locRows, reqsNoCol, List.filter]) (by simp [beam8]) (by simp)

/-- C6 (counterexample): with a zero tolerance over a zero predicted
pulse energy (both non-negative) the attenuation cell is the NaN of
`0.0/0.0`, and NaN fails the bound `0 ≤ x`. -/
theorem minAtt_nan_cell_breaks_bounds :
    calcLimits reqsZeroTol beamZero = .ok (attFN, rateFN) ∧
    cellOf attFN.columns "8.0" 0 = some XQ.nan ∧
    XQ.leB (XQ.fin 0) XQ.nan = false :=
  ⟨evalZeroTol, by simp [attFN, cellOf, colFind], rfl⟩

/-- C6 (amended): every attenuation cell computed from a non-negative
tolerance and a non-negative predicted pulse energy that are not both
zero lies between 0 and 1. -/
theorem minAtt_bounds_of_not_both_zero (reqs : ReqTable) (beam : Frame ℚ)
    (att rate : Frame XQ) (nm : Label) (rows : List (List (Label × ℚ)))
    (lbl : Label) (i : ℕ) (r v : ℚ)
    (h : calcLimits reqs beam = .ok (att, rate))
    (hn : stateName reqs = .ok nm) (hrow : locRows reqs nm = .ok rows)
    (hr : selVal rows lbl = .ok r)
    (hv : cellOf beam.columns lbl i = some v)
    (hr0 : 0 ≤ r) (hv0 : 0 ≤ v) (hnb : ¬(r = 0 ∧ v = 0)) :
    ∃ a, cellOf att.columns lbl i = some a ∧
      XQ.leB (XQ.fin 0) a = true ∧ XQ.leB a (XQ.fin 1) = true :=
  ⟨specMinAttCell r v,
    calcLimits_att_cell reqs beam att rate nm rows lbl i r v h hn hrow hr hv,
    (specMinAttCell_bounds r v hr0 hv0 hnb).1,
    (specMinAttCell_bounds r v hr0 hv0 hnb).2⟩

/-- Witness for C6 (amended) at the 12000 µJ scenario. -/
theorem minAtt_bounds_of_not_both_zero_witness :
    ∃ a, cellOf attF12.columns "8.0" 0 = some a ∧
      XQ.leB (XQ.fin 0) a = true ∧ XQ.leB a (XQ.fin 1) = true :=
  minAtt_bounds_of_not_both_zero reqsOpen beam12 attF12 rateF12 "OPEN" [rowOpen]
    "8.0" 0 10 12000 evalOpen12 (by simp [stateName, reqsOpen])
    (by simp [locRows, reqsOpen, rowOpen, List.filter]) (by simp [selVal, lookupVal, rowOpen])
    (by simp [cellOf, colFind, beam12]) (by norm_num) (by norm_num)
    (by norm_num)

/-- C7 (counterexample): a cell with zero predicted pulse energy makes
the repetition-rate output `+inf`, which is not an integer-valued
float. -/
theorem rate_infinite_on_zero_energy :
    calcLimits reqsOpen beamZero = .ok (attFZ, rateFZ) ∧
    cellOf rateFZ.columns "8.0" 0 = some XQ.pinf ∧
    XQ.isIntVal XQ.pinf = false :=
  ⟨evalOpenZero, by simp [rateFZ, cellOf, colFind], rfl⟩

/-- C7 (amended): every repetition-rate cell computed from a nonzero
predicted pulse energy is an integer-valued float after the final
rounding to zero decimal places. -/
theorem rate_integer_valued_of_nonzero_energy (reqs : ReqTable)
    (beam : Frame ℚ) (att rate : Frame XQ) (nm : Label)
    (rows : List (List (Label × ℚ))) (lbl : Label) (i : ℕ) (r p v : ℚ)
    (h : calcLimits reqs beam = .ok (att, rate))
    (hn : stateName reqs = .ok nm) (hrow : locRows reqs nm = .ok rows)
    (hr : selVal rows lbl = .ok r)
    (hp : selVal rows "Power" = .ok p)
    (hv : cellOf beam.columns lbl i = some v) (hvne : v ≠ 0) :
    ∃ n : ℤ, cellOf rate.columns lbl i = some (XQ.fin (n : ℚ)) ∧
      XQ.isIntVal (XQ.fin (n : ℚ)) = true := by
  obtain ⟨qa, hqa⟩ := specMinAttCell_fin r v hvne
  have ha : cellOf att.columns lbl i = some (XQ.fin qa) := by
    rw [calcLimits_att_cell reqs beam att rate nm rows lbl i r v h hn hrow hr hv,
      hqa]
  obtain ⟨n, hn2⟩ := specMaxRateCell_int p v qa hvne
  refine ⟨n, ?_, ?_⟩
  · rw [calcLimits_rate_cell reqs beam att rate nm rows lbl i p v (XQ.fin qa)
      h hn hrow hp hv ha]
    exact congrArg some hn2
  · simp [XQ.isIntVal]

/-- Witness for C7 (amended) at the 12000 µJ scenario. -/
theorem rate_integer_valued_of_nonzero_energy_witness :
    ∃ n : ℤ, cellOf rateF12.columns "8.0" 0 = some (XQ.fin (n : ℚ)) ∧
      XQ.isIntVal (XQ.fin (n : ℚ)) = true :=
  rate_integer_valued_of_nonzero_energy reqsOpen beam12 attF12 rateF12 "OPEN"
    [rowOpen] "8.0" 0 10 5 12000 evalOpen12 (by simp [stateName, reqsOpen])
    (by simp [locRows, reqsOpen, rowOpen, List.filter]) (by simp [selVal, lookupVal, rowOpen])
    (by simp [selVal, lookupVal, rowOpen]) (by simp [cellOf, colFind, beam12])
    (by norm_num)

/-- C8: both output tables of a successful run carry exactly the beam
table's row labels and column labels, in order. -/
theorem outputs_share_beam_labels (reqs : ReqTable) (beam : Frame ℚ)
    (att rate : Frame XQ) (h : calcLimits reqs beam = .ok (att, rate)) :
    att.index = beam.index ∧
    att.columns.map Prod.fst = beam.columns.map Prod.fst ∧
    rate.index = beam.index ∧
    rate.columns.map Prod.fst = beam.columns.map Prod.fst :=
  calcLimits_shape reqs beam att rate h

/-- Witness for C8 at the 8000 µJ scenario. -/
theorem outputs_share_beam_labels_witness :
    attF8.index = beam8.index ∧
    attF8.columns.map Prod.fst = beam8.columns.map Prod.fst ∧
    rateF8.index = beam8.index ∧
    rateF8.columns.map Prod.fst = beam8.columns.map Prod.fst :=
  outputs_share_beam_labels reqsOpen beam8 attF8 rateF8 evalOpen8

/-- C9: the calculation is deterministic — equal requirement and
beam-power inputs produce equal output tables. -/
theorem calc_deterministic (reqs1 reqs2 : ReqTable) (beam1 beam2 : Frame ℚ)
    (h1 : reqs1 = reqs2) (h2 : beam1 = beam2) :
    calcLimits reqs1 beam1 = calcLimits reqs2 beam2 := by
  rw [h1, h2]

/-- Witness for C9 at the 8000 µJ scenario. -/
theorem calc_deterministic_witness :
    calcLimits reqsOpen beam8 = calcLimits reqsOpen beam8 :=
  calc_deterministic reqsOpen reqsOpen beam8 beam8 rfl rfl

/-- C10 (counterexample): a second requirement row that duplicates the
first row's label makes `.loc[state_name]` select several rows, so the
run fails on the duplicate axis instead of reproducing the single-row
output — an additional row can change the result even though the first
rows agree. -/
theorem duplicate_state_row_changes_result :
    reqsDup.head? = reqsOpen.head? ∧
    calcLimits reqsOpen beam8 = .ok (attF8, rateF8) ∧
    calcLimits reqsDup beam8 =
      .error "ValueError: cannot reindex from a duplicate axis" := by
  refine ⟨rfl, evalOpen8, ?_⟩
  simp [calcLimits, reqsDup, beam8, stateName, locRows, selVal, List.filter,
    minAttCols, transCols, Except.bind, bind, Except.map]

/-- C10 (amended): when no additional requirement row reuses the first
row's label, only the first row influences the result — two requirement
tables sharing a first row (label and contents) give identical outputs
whatever their remaining rows are. -/
theorem only_first_req_row_matters (r : Label × List (Label × ℚ))
    (rest1 rest2 : ReqTable) (beam : Frame ℚ)
    (h1 : ∀ x ∈ rest1, x.1 ≠ r.1) (h2 : ∀ x ∈ rest2, x.1 ≠ r.1) :
    calcLimits (r :: rest1) beam = calcLimits (r :: rest2) beam := by
  have f1 : rest1.filter (fun x => x.1 = r.1) = [] := by
    rw [List.filter_eq_nil_iff]
    intro a ha
    simpa using h1 a ha
  have f2 : rest2.filter (fun x => x.1 = r.1) = [] := by
    rw [List.filter_eq_nil_iff]
    intro a ha
    simpa using h2 a ha
  have e1 : locRows (r :: rest1) r.1 = .ok [r.2] := by
    simp [locRows, List.filter, f1]
  have e2 : locRows (r :: rest2) r.1 = .ok [r.2] := by
    simp [locRows, List.filter, f2]
  simp [calcLimits, stateName, e1, e2]

/-- Witness for C10 (amended): appending a row with a different label
leaves the run's output unchanged. -/
theorem only_first_req_row_matters_witness :
    calcLimits [("OPEN", [("8.0", 10), ("Power", 5)])] beam8 =
      calcLimits [("OPEN", [("8.0", 10), ("Power", 5)]),
        ("CLOSED", [("8.0", 3), ("Power", 1)])] beam8 :=
  only_first_req_row_matters ("OPEN", [("8.0", 10), ("Power", 5)]) []
    [("CLOSED", [("8.0", 3), ("Power", 1)])] beam8 (by simp) (by simp)
